import Mathlib

/-!
Shallow embedding of `src/audio_manager.py` (class `AudioManager`).

Modelling choices:
* Audio samples are abstract scalars of a type parameter `α`: the source
  performs no arithmetic on samples (it only duplicates a mono column into
  two identical stereo columns via `np.column_stack((data, data))`), so the
  float sample type is modelled by an arbitrary type with decidable equality
  at witness instantiations.
* The Python dict `self.audio_cache` is modelled as an insertion-ordered
  association list with the dict update semantics (`dictInsert`): updating an
  existing key keeps its position, a new key is appended at the end, and
  `list(d.keys())` is the list of first components.
* The external world is an `Env`: a file system mapping resolved paths to
  file contents (absent / decodable with data and sample rate / present but
  failing to decode, which models `sf.read` raising), plus boolean knobs for
  the fallible device-adapter calls (`sd.default` configuration, warm-up
  playback, `sd.play` in the playback thread, `sd.stop`, and the Windows
  thread-priority call).
* Side effects (logging calls, console prints, device calls, thread spawns)
  are recorded in an event trace; the dispatched playback thread body is a
  separate total function `playThreadRun` returning the thread-local trace,
  reflecting that the thread's `try/except Exception` catches everything.
* The source name `initialize` is rendered `initAudio` and `_initialized` is
  rendered `inited` (Lean-side naming constraints); all other names follow
  the source (`add_sound`, `play_sound`, `get_audio_data`,
  `get_available_sounds`, `stop_all_sounds`, `preload_audio_files`,
  `warmup_audio_stream`, `get_resource_path`).
-/

namespace AudioMgr

/-- Decoded audio as returned by `sf.read`: a 1-D mono array or a 2-D array
of frames, each frame a list of channel samples. -/
inductive AudioData (α : Type) where
  | mono (samples : List α) : AudioData α
  | multi (frames : List (List α)) : AudioData α
deriving DecidableEq

/-- Content of a file in the modelled file system: it decodes to data and a
sample rate, or `sf.read` raises on it. -/
inductive FileContent (α : Type) where
  | decodable (data : AudioData α) (fs : Nat) : FileContent α
  | decodeFails : FileContent α
deriving DecidableEq

/-- One cache entry: the dict `\x7b'data': data, 'fs': fs\x7d` stored under a
sound key, after mono-to-stereo conversion. -/
structure CacheEntry (α : Type) where
  data : List (List α)
  fs : Nat
deriving DecidableEq

/-- Observable side effects of the manager, in program order. -/
inductive Event (α : Type) where
  | configureDevice : Event α
  | playDevice (data : List (List α)) (fs : Nat) : Event α
  | playBlockingDevice (frames : Nat) (fs : Nat) : Event α
  | stopDevice : Event α
  | spawnThread (key : String) : Event α
  | logWarning (msg : String) : Event α
  | logError (msg : String) : Event α
  | logInfo (msg : String) : Event α
  | logDebug (msg : String) : Event α
  | consolePrint (msg : String) : Event α
deriving DecidableEq

/-- The external world: file system plus failure behaviour of the device
adapter calls. `base` is the resource base path (`sys._MEIPASS` or
`os.path.abspath(".")`). -/
structure Env (α : Type) where
  base : String
  files : List (String × FileContent α)
  configFails : Bool
  warmupFails : Bool
  playFails : Bool
  priorityFails : Bool
  stopFails : Bool
deriving DecidableEq

/-- State of an `AudioManager` instance. `inited` renders `_initialized`. -/
structure AudioManager (α : Type) where
  sounds_dir : String
  audio_cache : List (String × CacheEntry α)
  inited : Bool
  default_sounds : List (String × String)
deriving DecidableEq

/-- Python dict lookup `d[k]` / `k in d` on the association-list model. -/
def dictLookup (k : String) : List (String × β) → Option β
  | [] => none
  | (k', v) :: rest => if k' = k then some v else dictLookup k rest

/-- Python dict update `d[k] = v`: replace in place if the key exists,
append otherwise. -/
def dictInsert (k : String) (v : β) : List (String × β) → List (String × β)
  | [] => [(k, v)]
  | (k', v') :: rest =>
    if k' = k then (k, v) :: rest else (k', v') :: dictInsert k v rest

/-- `os.path.join` for the two-argument uses in the source. -/
def joinPath (a b : String) : String := a ++ "/" ++ b

/-- `_get_resource_path`: joins the base path with the relative path. -/
def get_resource_path (env : Env α) (relative_path : String) : String :=
  joinPath env.base relative_path

/-- Mono-to-stereo conversion: `np.column_stack((data, data))` turns a 1-D
array of N samples into N frames of 2 identical channels; 2-D input is kept
as-is. -/
def normalizeStereo : AudioData α → List (List α)
  | .mono samples => samples.map (fun s => [s, s])
  | .multi frames => frames

/-- Frame count of decoded input data. -/
def frameCount : AudioData α → Nat
  | .mono samples => samples.length
  | .multi frames => frames.length

/-- The default audio file mapping set in `__init__`. -/
def defaultSoundTable : List (String × String) :=
  [("AP_Engage", "AP_Engage.mp3"),
   ("AP_Disengage", "AP_Disengage.mp3"),
   ("NoA_Engage", "NoA_Engage.mp3"),
   ("rec_start_voice", "rec_start_voice.mp3"),
   ("rec_stop_voice", "rec_stop_voice.mp3"),
   ("chime_single", "chime_single.mp3"),
   ("chime_hi_lo", "chime_hi_lo.mp3")]

/-- The state built by `__init__` before its `self.initialize()` call. -/
def mkAudioManager (α : Type) (sounds_dir : String) : AudioManager α :=
  { sounds_dir := sounds_dir
    audio_cache := []
    inited := false
    default_sounds := defaultSoundTable }

/-- `add_sound`: resolve the path; if the file is missing log an error and
return `False`; otherwise decode (a raised decode error is caught by the
`except`, logged, and turned into `False`), convert mono to stereo, store
the entry, and return `True`. -/
def add_sound (env : Env α) (st : AudioManager α) (sound_key file_path : String) :
    Bool × AudioManager α × List (Event α) :=
  let resolved_path := get_resource_path env file_path
  match dictLookup resolved_path env.files with
  | none =>
    (false, st, [.logError ("Audio file not found: " ++ resolved_path)])
  | some .decodeFails =>
    (false, st, [.logError ("Error adding sound (" ++ sound_key ++ ")")])
  | some (.decodable data fs) =>
    let entry : CacheEntry α := ⟨normalizeStereo data, fs⟩
    (true,
     { st with audio_cache := dictInsert sound_key entry st.audio_cache },
     [.logInfo ("Sound added: " ++ sound_key)])

/-- Body of `_play_thread`, the dispatched playback execution: best-effort
thread-priority elevation (failure logged at debug level and ignored), cache
lookup, and the device write; any exception is caught by the thread-local
`except` and logged, so the body is a total function on the model. -/
def playThreadRun (env : Env α) (st : AudioManager α) (sound_key : String) :
    List (Event α) :=
  (if env.priorityFails then
    [Event.logDebug "Failed to set Windows thread priority (ignored)"]
   else []) ++
  match dictLookup sound_key st.audio_cache with
  | none => [Event.logError ("Error playing audio (" ++ sound_key ++ ")")]
  | some audio =>
    if env.playFails then
      [Event.logError ("Error playing audio (" ++ sound_key ++ ")")]
    else
      [Event.playDevice audio.data audio.fs]

/-- Result of `play_sound`: the returned boolean, the caller-side events,
and the trace of each dispatched playback execution. -/
structure PlayResult (α : Type) where
  ret : Bool
  events : List (Event α)
  dispatched : List (List (Event α))
deriving DecidableEq

/-- `play_sound`: a cache miss logs a warning and returns `False`; a hit
spawns a daemon thread running `_play_thread` and returns `True` without
waiting. -/
def play_sound (env : Env α) (st : AudioManager α) (sound_key : String) :
    PlayResult α :=
  match dictLookup sound_key st.audio_cache with
  | none =>
    ⟨false, [.logWarning ("Sound key not found: " ++ sound_key)], []⟩
  | some _ =>
    ⟨true, [.spawnThread sound_key], [playThreadRun env st sound_key]⟩

/-- `get_audio_data`: lookup that logs a warning and returns `None` on a
miss. -/
def get_audio_data (st : AudioManager α) (sound_key : String) :
    Option (CacheEntry α) × List (Event α) :=
  match dictLookup sound_key st.audio_cache with
  | some audio => (some audio, [])
  | none => (none, [.logWarning ("Sound key not found: " ++ sound_key)])

/-- `get_available_sounds`: `list(self.audio_cache.keys())`. -/
def get_available_sounds (st : AudioManager α) : List String :=
  st.audio_cache.map Prod.fst

/-- `stop_all_sounds`: `sd.stop()` with its exception caught and logged. -/
def stop_all_sounds (env : Env α) : List (Event α) :=
  if env.stopFails then [.logError "Error stopping audio"] else [.stopDevice]

/-- The `for sound_key, filename in self.default_sounds.items()` loop inside
`_preload_audio_files`. A missing file logs a warning and the loop
continues; a decode failure is `sf.read` raising, which aborts the loop (the
third component is `false` when the loop was aborted). The cache keeps the
entries inserted before the failure. -/
def preloadLoop (env : Env α) (sounds_dir : String) (cache : List (String × CacheEntry α)) :
    List (String × String) → List (String × CacheEntry α) × List (Event α) × Bool
  | [] => (cache, [], true)
  | (sound_key, filename) :: rest =>
    let resolved_path := get_resource_path env (joinPath sounds_dir filename)
    match dictLookup resolved_path env.files with
    | none =>
      let result := preloadLoop env sounds_dir cache rest
      (result.1, .logWarning ("Audio file not found: " ++ resolved_path) :: result.2.1,
       result.2.2)
    | some .decodeFails => (cache, [], false)
    | some (.decodable data fs) =>
      let entry : CacheEntry α := ⟨normalizeStereo data, fs⟩
      preloadLoop env sounds_dir (dictInsert sound_key entry cache) rest

/-- `_preload_audio_files`: runs the loop under a `try`; a raised decode
error is caught here and logged, never surfacing to the caller. -/
def preload_audio_files (env : Env α) (st : AudioManager α) :
    AudioManager α × List (Event α) :=
  let result := preloadLoop env st.sounds_dir st.audio_cache st.default_sounds
  let st' := { st with audio_cache := result.1 }
  if result.2.2 then
    (st', result.2.1 ++
      [.consolePrint ("Loaded " ++ toString result.1.length ++ " audio files")])
  else
    (st', result.2.1 ++
      [.logError "Error loading audio files", .consolePrint "Error loading audio files"])

/-- `_warmup_audio_stream`: blocking playback of 100 frames of silence at
22050 Hz; failure is caught and logged as a warning. -/
def warmup_audio_stream (env : Env α) : List (Event α) :=
  if env.warmupFails then
    [.logWarning "Audio stream warm-up failed"]
  else
    [.playBlockingDevice 100 22050, .consolePrint "Audio stream warm-up complete"]

/-- `initialize` (rendered `initAudio`): no-op when already initialized.
Otherwise, under one `try`: configure the device defaults, preload, warm up,
set the initialized flag. A raised configuration error is caught by the
outer `except` and logged, which skips preload, warm-up, and the flag
assignment; preload and warm-up catch their own exceptions so they never
reach the outer `except`. -/
def initAudio (env : Env α) (st : AudioManager α) :
    AudioManager α × List (Event α) :=
  if st.inited then (st, [])
  else if env.configFails then
    (st, [.logError "Error during audio system initialization",
          .consolePrint "Error during audio system initialization"])
  else
    let preloaded := preload_audio_files env st
    let warmupEvents := warmup_audio_stream env
    ({ preloaded.1 with inited := true },
     .configureDevice :: preloaded.2 ++ warmupEvents ++
       [.consolePrint "Audio system initialization complete"])

/-- The facade's public operations, for stating cache-monotonicity over any
call sequence. -/
inductive Op where
  | initOp : Op
  | playOp (sound_key : String) : Op
  | addSoundOp (sound_key file_path : String) : Op
  | getAudioDataOp (sound_key : String) : Op
  | availableSoundsOp : Op
  | stopAllOp : Op
deriving DecidableEq

/-- State transition of one public operation. `play_sound`,
`get_audio_data`, `get_available_sounds` and `stop_all_sounds` do not write
any instance state, so they leave the state unchanged. -/
def stepState (env : Env α) (st : AudioManager α) : Op → AudioManager α
  | .initOp => (initAudio env st).1
  | .playOp _ => st
  | .addSoundOp sound_key file_path => (add_sound env st sound_key file_path).2.1
  | .getAudioDataOp _ => st
  | .availableSoundsOp => st
  | .stopAllOp => st

/-- Running a sequence of public operations. -/
def runOps (env : Env α) (st : AudioManager α) : List Op → AudioManager α
  | [] => st
  | op :: rest => runOps env (stepState env st op) rest

/-! Concrete instances used by witnesses, counterexamples and scenario
conjuncts. Sample type is instantiated at `Int` (samples are opaque scalars
for this program). -/

/-- Environment with no files and no device failures. -/
def envEmpty : Env Int :=
  ⟨".", [], false, false, false, false, false⟩

/-- Environment with no files in which the device write of the playback
thread raises. -/
def envPlayFails : Env Int :=
  ⟨".", [], false, false, true, false, false⟩

/-- Environment in which the device-default configuration step raises. -/
def envConfigFails : Env Int :=
  ⟨".", [], true, false, false, false, false⟩

/-- Environment with no files in which only the warm-up playback raises. -/
def envWarmupFails : Env Int :=
  ⟨".", [], false, true, false, false, false⟩

/-- Manager state holding the single key `beep`, already initialized, with
an empty default table. -/
def stBeep : AudioManager Int :=
  ⟨"d", [("beep", ⟨[[1, 1]], 44100⟩)], true, []⟩

/-- Already-initialized manager state with an empty cache. -/
def stEmptyInited : AudioManager Int :=
  ⟨"d", [], true, []⟩

/-- Environment whose file system holds one decodable 3-channel file
`./tri.wav` (one frame, three channels). -/
def envTri : Env Int :=
  ⟨".", [("./tri.wav", .decodable (.multi [[1, 2, 3]]) 44100)],
   false, false, false, false, false⟩

/-- Environment whose file system holds one decodable 2-frame mono file
`./m.wav`. -/
def envMono : Env Int :=
  ⟨".", [("./m.wav", .decodable (.mono [5, 7]) 8000)],
   false, false, false, false, false⟩

/-- Manager state that already caches the key `chime`. -/
def stChime : AudioManager Int :=
  ⟨"d", [("chime", ⟨[[0, 0]], 8000⟩)], true, []⟩

/-- Environment for the aborted-preload counterexample: `a.mp3` exists but
fails to decode, `b.mp3` exists and decodes. -/
def envDecodeAbort : Env Int :=
  ⟨".",
   [("./sdir/a.mp3", .decodeFails),
    ("./sdir/b.mp3", .decodable (.mono [0]) 44100)],
   false, false, false, false, false⟩

/-- Uninitialized manager state with the two-entry table of
`envDecodeAbort`. -/
def stDecodeAbort : AudioManager Int :=
  ⟨"sdir", [], false, [("a", "a.mp3"), ("b", "b.mp3")]⟩

/-- Environment for the 7-entry preload scenario: all default files exist
and decode except `chime_hi_lo.mp3`, which is missing. -/
def envSixOfSeven : Env Int :=
  ⟨".",
   [("./src/sounds/AP_Engage.mp3", .decodable (.mono [0]) 44100),
    ("./src/sounds/AP_Disengage.mp3", .decodable (.mono [0]) 44100),
    ("./src/sounds/NoA_Engage.mp3", .decodable (.mono [0]) 44100),
    ("./src/sounds/rec_start_voice.mp3", .decodable (.mono [0]) 44100),
    ("./src/sounds/rec_stop_voice.mp3", .decodable (.mono [0]) 44100),
    ("./src/sounds/chime_single.mp3", .decodable (.mono [0]) 44100)],
   false, false, false, false, false⟩

/-- Environment with three decodable files `a.mp3`, `b.mp3`, `c.mp3`. -/
def envAbc : Env Int :=
  ⟨".",
   [("./a.mp3", .decodable (.mono [0]) 1),
    ("./b.mp3", .decodable (.mono [0]) 1),
    ("./c.mp3", .decodable (.mono [0]) 1)],
   false, false, false, false, false⟩

/-- State obtained by inserting exactly the keys a, b, c into an empty
cache via `add_sound`. -/
def stAbc : AudioManager Int :=
  (add_sound envAbc
    (add_sound envAbc
      (add_sound envAbc stEmptyInited "a" "a.mp3").2.1
      "b" "b.mp3").2.1
    "c" "c.mp3").2.1

/-! Helper lemmas about the dict model and the preload loop. -/

/-- Lookup after a dict update: the inserted key maps to the new value, all
other keys are unchanged. -/
theorem dictLookup_dictInsert (j k : String) (v : β) (l : List (String × β)) :
    dictLookup j (dictInsert k v l) =
      if k = j then some v else dictLookup j l := by
  induction l with
  | nil => simp [dictInsert, dictLookup]
  | cons hd tl ih =>
    obtain ⟨k2, v2⟩ := hd
    by_cases h2 : k2 = k <;> by_cases hj : k = j <;>
      simp_all [dictInsert, dictLookup]

/-- Dict updates never make an existing key disappear. -/
theorem dictLookup_isSome_dictInsert (j k : String) (v : β) (l : List (String × β))
    (h : (dictLookup j l).isSome = true) :
    (dictLookup j (dictInsert k v l)).isSome = true := by
  rw [dictLookup_dictInsert]
  by_cases hkj : k = j <;> simp [hkj, h]

/-- A key is listed by `get_available_sounds` exactly when it is in the
cache. -/
theorem mem_map_fst_iff_dictLookup_isSome (k : String) (l : List (String × β)) :
    k ∈ l.map Prod.fst ↔ (dictLookup k l).isSome = true := by
  induction l with
  | nil => simp [dictLookup]
  | cons hd tl ih =>
    obtain ⟨k2, v2⟩ := hd
    by_cases h2 : k2 = k
    · subst h2; simp [dictLookup]
    · simp [dictLookup, h2, Ne.symm h2, ih]

/-- The preload loop never removes a key already in the cache. -/
theorem preloadLoop_mono (env : Env α) (d : String) (tbl : List (String × String)) :
    ∀ cache k, (dictLookup k cache).isSome = true →
      (dictLookup k (preloadLoop env d cache tbl).1).isSome = true := by
  induction tbl with
  | nil => intro cache k h; simpa [preloadLoop] using h
  | cons hd tl ih =>
    intro cache k h
    obtain ⟨sk, fn⟩ := hd
    simp only [preloadLoop]
    cases hf : dictLookup (get_resource_path env (joinPath d fn)) env.files with
    | none => simpa using ih cache k h
    | some fc =>
      cases fc with
      | decodeFails => simpa using h
      | decodable data fs =>
        exact ih _ k (dictLookup_isSome_dictInsert k sk _ cache h)

/-- The state produced by `_preload_audio_files` is the input state with the
cache replaced by the loop's final cache. -/
theorem preload_audio_files_fst (env : Env α) (st : AudioManager α) :
    (preload_audio_files env st).1 =
      { st with audio_cache :=
          (preloadLoop env st.sounds_dir st.audio_cache st.default_sounds).1 } := by
  simp only [preload_audio_files]
  split <;> rfl

/-- Characterization of the state returned by `initAudio`. -/
theorem initAudio_fst (env : Env α) (st : AudioManager α) :
    (initAudio env st).1 =
      if st.inited then st
      else if env.configFails then st
      else { st with
              audio_cache :=
                (preloadLoop env st.sounds_dir st.audio_cache st.default_sounds).1,
              inited := true } := by
  by_cases h1 : st.inited
  · simp [initAudio, h1]
  · by_cases h2 : env.configFails
    · simp [initAudio, h1, h2]
    · simp [initAudio, h1, h2, preload_audio_files_fst]

/-- No single public operation removes a key from the cache. -/
theorem stepState_mono (env : Env α) (st : AudioManager α) (op : Op) (k : String)
    (h : (dictLookup k st.audio_cache).isSome = true) :
    (dictLookup k (stepState env st op).audio_cache).isSome = true := by
  cases op with
  | initOp =>
    simp only [stepState, initAudio_fst]
    by_cases h1 : st.inited
    · simpa [h1] using h
    · by_cases h2 : env.configFails
      · simpa [h1, h2] using h
      · simpa [h1, h2] using
          preloadLoop_mono env st.sounds_dir st.default_sounds st.audio_cache k h
  | playOp sk => simpa [stepState] using h
  | addSoundOp sk fp =>
    simp only [stepState, add_sound]
    cases hf : dictLookup (get_resource_path env fp) env.files with
    | none => simpa using h
    | some fc =>
      cases fc with
      | decodeFails => simpa using h
      | decodable data fs =>
        simpa using dictLookup_isSome_dictInsert k sk _ st.audio_cache h
  | getAudioDataOp sk => simpa [stepState] using h
  | availableSoundsOp => simpa [stepState] using h
  | stopAllOp => simpa [stepState] using h

/-- No sequence of public operations removes a key from the cache. -/
theorem runOps_mono (env : Env α) (ops : List Op) :
    ∀ st (k : String), (dictLookup k st.audio_cache).isSome = true →
      (dictLookup k (runOps env st ops).audio_cache).isSome = true := by
  induction ops with
  | nil => intro st k h; simpa [runOps] using h
  | cons op rest ih =>
    intro st k h
    simpa [runOps] using ih (stepState env st op) k (stepState_mono env st op k h)

/-- Completeness of the preload loop when no table entry's file fails to
decode: the loop reaches the end of the table, every entry whose file
exists and decodes ends up in the cache, and every entry whose file is
missing contributes a warning log and is skipped without aborting. -/
theorem preloadLoop_no_decode_fail (env : Env α) (d : String) :
    ∀ (tbl : List (String × String)) (cache : List (String × CacheEntry α)),
      (∀ e ∈ tbl,
        dictLookup (get_resource_path env (joinPath d e.2)) env.files ≠
          some FileContent.decodeFails) →
      (preloadLoop env d cache tbl).2.2 = true ∧
      (∀ e ∈ tbl, ∀ data fs,
        dictLookup (get_resource_path env (joinPath d e.2)) env.files =
          some (FileContent.decodable data fs) →
        (dictLookup e.1 (preloadLoop env d cache tbl).1).isSome = true) ∧
      (∀ e ∈ tbl,
        dictLookup (get_resource_path env (joinPath d e.2)) env.files = none →
        Event.logWarning ("Audio file not found: " ++
            get_resource_path env (joinPath d e.2)) ∈
          (preloadLoop env d cache tbl).2.1) := by
  intro tbl
  induction tbl with
  | nil =>
    intro cache hnd
    exact ⟨rfl, by simp, by simp⟩
  | cons hd tl ih =>
    intro cache hnd
    obtain ⟨sk, fn⟩ := hd
    have hnd_tl : ∀ e ∈ tl,
        dictLookup (get_resource_path env (joinPath d e.2)) env.files ≠
          some FileContent.decodeFails :=
      fun e hm => hnd e (List.mem_cons_of_mem _ hm)
    cases hf : dictLookup (get_resource_path env (joinPath d fn)) env.files with
    | none =>
      obtain ⟨h1, h2, h3⟩ := ih cache hnd_tl
      refine ⟨by simpa [preloadLoop, hf] using h1, ?_, ?_⟩
      · intro e hm data fs hlu
        rcases List.mem_cons.mp hm with rfl | hm2
        · simp [hf] at hlu
        · simpa [preloadLoop, hf] using h2 e hm2 data fs hlu
      · intro e hm hlu
        rcases List.mem_cons.mp hm with rfl | hm2
        · simp [preloadLoop, hf]
        · simp only [preloadLoop, hf, List.mem_cons]
          exact Or.inr (h3 e hm2 hlu)
    | some fc =>
      cases fc with
      | decodeFails =>
        exact absurd hf (hnd ⟨sk, fn⟩ (List.mem_cons_self _ _))
      | decodable data fs =>
        obtain ⟨h1, h2, h3⟩ :=
          ih (dictInsert sk ⟨normalizeStereo data, fs⟩ cache) hnd_tl
        refine ⟨by simpa [preloadLoop, hf] using h1, ?_, ?_⟩
        · intro e hm d2 fs2 hlu
          rcases List.mem_cons.mp hm with rfl | hm2
          · have hbase : (dictLookup sk
                (dictInsert sk ⟨normalizeStereo data, fs⟩ cache)).isSome = true := by
              rw [dictLookup_dictInsert]; simp
            simpa [preloadLoop, hf] using
              preloadLoop_mono env d tl _ sk hbase
          · simpa [preloadLoop, hf] using h2 e hm2 d2 fs2 hlu
        · intro e hm hlu
          rcases List.mem_cons.mp hm with rfl | hm2
          · simp [hf] at hlu
          · simpa [preloadLoop, hf] using h3 e hm2 hlu

/-! Claim theorems. -/

/-- C1: for every key present in the sound cache, `play_sound` returns
`True` (for any environment, so the return value reflects only that the key
existed and does not depend on device failures), the caller-side effect is
exactly one thread spawn, one dispatched playback execution for the key is
produced, and a device error inside the dispatched execution yields a
logged error in the dispatched trace rather than propagating: the trace is
a plain event list for every environment. -/
theorem c1_play_present_dispatch (α : Type) (env : Env α)
    (st : AudioManager α) (k : String)
    (h : (dictLookup k st.audio_cache).isSome = true) :
    (play_sound env st k).ret = true ∧
    (play_sound env st k).events = [Event.spawnThread k] ∧
    (play_sound env st k).dispatched = [playThreadRun env st k] ∧
    (env.playFails = true →
      Event.logError ("Error playing audio (" ++ k ++ ")") ∈
        playThreadRun env st k) := by
  obtain ⟨v, hv⟩ := Option.isSome_iff_exists.mp h
  refine ⟨by simp [play_sound, hv], by simp [play_sound, hv],
          by simp [play_sound, hv], ?_⟩
  intro hp
  simp only [playThreadRun, hv, hp, if_true]
  split <;> simp

/-- Witness for C1 at the key `beep` in `stBeep` under `envPlayFails`. -/
theorem c1_witness :
    (dictLookup "beep" stBeep.audio_cache).isSome = true ∧
    (play_sound envPlayFails stBeep "beep").ret = true ∧
    (play_sound envPlayFails stBeep "beep").events = [Event.spawnThread "beep"] ∧
    (play_sound envPlayFails stBeep "beep").dispatched =
      [playThreadRun envPlayFails stBeep "beep"] ∧
    Event.logError "Error playing audio (beep)" ∈
      playThreadRun envPlayFails stBeep "beep" := by
  have h := c1_play_present_dispatch Int envPlayFails stBeep "beep" (by decide)
  exact ⟨by decide, h.1, h.2.1, h.2.2.1, h.2.2.2 rfl⟩

/-- C2: for every key absent from the sound cache, `play_sound` returns
`False`, the only side effect is one warning log (in particular no device
call and no spawned execution), and the state is unchanged. -/
theorem c2_play_absent_no_effect (α : Type) (env : Env α)
    (st : AudioManager α) (k : String)
    (h : dictLookup k st.audio_cache = none) :
    (play_sound env st k).ret = false ∧
    (play_sound env st k).events =
      [Event.logWarning ("Sound key not found: " ++ k)] ∧
    (play_sound env st k).dispatched = [] ∧
    stepState env st (.playOp k) = st := by
  exact ⟨by simp [play_sound, h], by simp [play_sound, h],
         by simp [play_sound, h], rfl⟩

/-- Witness for C2 at the absent key `nope` in `stBeep`. -/
theorem c2_witness :
    dictLookup "nope" stBeep.audio_cache = none ∧
    (play_sound envPlayFails stBeep "nope").ret = false ∧
    (play_sound envPlayFails stBeep "nope").events =
      [Event.logWarning "Sound key not found: nope"] ∧
    (play_sound envPlayFails stBeep "nope").dispatched = [] ∧
    stepState envPlayFails stBeep (.playOp "nope") = stBeep := by
  have h := c2_play_absent_no_effect Int envPlayFails stBeep "nope" (by decide)
  exact ⟨by decide, h.1, h.2.1, h.2.2.1, h.2.2.2⟩

/-- C7: when the initialized flag is already set, `initAudio` returns the
state unchanged and performs no action at all (empty event trace: no
configuration, no preload, no warm-up). -/
theorem c7_init_idempotent (α : Type) (env : Env α) (st : AudioManager α)
    (h : st.inited = true) :
    initAudio env st = (st, []) := by
  simp [initAudio, h]

/-- Witness for C7 on the already-initialized state `stBeep`. -/
theorem c7_witness : initAudio envPlayFails stBeep = (stBeep, []) := by
  exact c7_init_idempotent Int envPlayFails stBeep rfl

/-- C9: a key present in the cache is still present after any single public
operation and after any sequence of public operations: the cached key set
is monotonically non-decreasing. -/
theorem c9_cache_monotone (α : Type) (env : Env α) (st : AudioManager α)
    (k : String) (h : (dictLookup k st.audio_cache).isSome = true) :
    (∀ op : Op, (dictLookup k (stepState env st op).audio_cache).isSome = true) ∧
    (∀ ops : List Op,
      (dictLookup k (runOps env st ops).audio_cache).isSome = true) :=
  ⟨fun op => stepState_mono env st op k h, fun ops => runOps_mono env ops st k h⟩

/-- Witness for C9: the key `beep` survives a concrete operation sequence
(re-init, a play, an overwrite of `beep` itself, a failed add, a stop). -/
theorem c9_witness :
    (dictLookup "beep" stBeep.audio_cache).isSome = true ∧
    (dictLookup "beep"
      (runOps envAbc stBeep
        [Op.initOp, Op.playOp "x", Op.addSoundOp "beep" "a.mp3",
         Op.addSoundOp "y" "missing.mp3", Op.stopAllOp]).audio_cache).isSome =
      true := by
  have h := c9_cache_monotone Int envAbc stBeep "beep" (by decide)
  exact ⟨by decide, h.2 [Op.initOp, Op.playOp "x", Op.addSoundOp "beep" "a.mp3",
    Op.addSoundOp "y" "missing.mp3", Op.stopAllOp]⟩

/-- C10: when the resolved file exists but fails to decode, `add_sound`
catches the raised decode error, returns `False`, logs exactly one error,
and leaves the state (in particular the cache) unchanged: no
partially-built entry is observable. -/
theorem c10_add_sound_atomic_decode (α : Type) (env : Env α)
    (st : AudioManager α) (k p : String)
    (h : dictLookup (get_resource_path env p) env.files =
      some FileContent.decodeFails) :
    (add_sound env st k p).1 = false ∧
    (add_sound env st k p).2.1 = st ∧
    (add_sound env st k p).2.2 =
      [Event.logError ("Error adding sound (" ++ k ++ ")")] := by
  refine ⟨?_, ?_, ?_⟩ <;> simp [add_sound, h]

/-- Witness for C10: adding the key `a` from a present but undecodable
file. -/
theorem c10_witness :
    dictLookup (get_resource_path envDecodeAbort "sdir/a.mp3")
      envDecodeAbort.files = some FileContent.decodeFails ∧
    (add_sound envDecodeAbort stEmptyInited "a" "sdir/a.mp3").1 = false ∧
    (add_sound envDecodeAbort stEmptyInited "a" "sdir/a.mp3").2.1 =
      stEmptyInited ∧
    (add_sound envDecodeAbort stEmptyInited "a" "sdir/a.mp3").2.2 =
      [Event.logError "Error adding sound (a)"] := by
  have h := c10_add_sound_atomic_decode Int envDecodeAbort stEmptyInited
    "a" "sdir/a.mp3" (by decide)
  exact ⟨by decide, h.1, h.2.1, h.2.2⟩

/-- C3 counterexample: in a 2-entry table where the first entry's file
exists but fails to decode and the second entry's file exists and decodes,
the decode failure aborts the preload loop, so the second entry is not
loaded — refuting that a decoding failure is skipped without aborting the
loop so that every other entry still loads. The failure is logged and the
caller still completes initialization. -/
theorem c3_counterexample :
    dictLookup "./sdir/a.mp3" envDecodeAbort.files = some FileContent.decodeFails ∧
    dictLookup "./sdir/b.mp3" envDecodeAbort.files =
      some (FileContent.decodable (AudioData.mono [0]) 44100) ∧
    dictLookup "b" (initAudio envDecodeAbort stDecodeAbort).1.audio_cache = none ∧
    (initAudio envDecodeAbort stDecodeAbort).1.audio_cache = [] ∧
    (initAudio envDecodeAbort stDecodeAbort).1.inited = true := by
  decide

/-- C3 amended: during preload, an entry whose file is missing is logged
and skipped without aborting the loop, but an entry whose file fails to
decode aborts the remainder of the loop (the raised error is caught at the
loop level and does not surface). Hence: when no table entry's file fails
to decode, the loop completes, every entry whose file exists and decodes is
in the cache afterwards, and every missing entry only logs a warning; in
particular, for the default 7-entry table with exactly 1 file missing,
exactly 6 entries are cached after initialization and the state is marked
initialized. -/
theorem c3_preload_skips_missing (α : Type) (env : Env α) (st : AudioManager α)
    (hnd : ∀ e ∈ st.default_sounds,
      dictLookup (get_resource_path env (joinPath st.sounds_dir e.2)) env.files ≠
        some FileContent.decodeFails) :
    ((preloadLoop env st.sounds_dir st.audio_cache st.default_sounds).2.2 = true ∧
     (∀ e ∈ st.default_sounds, ∀ data fs,
       dictLookup (get_resource_path env (joinPath st.sounds_dir e.2)) env.files =
         some (FileContent.decodable data fs) →
       (dictLookup e.1
         (preloadLoop env st.sounds_dir st.audio_cache st.default_sounds).1).isSome =
         true) ∧
     (∀ e ∈ st.default_sounds,
       dictLookup (get_resource_path env (joinPath st.sounds_dir e.2)) env.files =
         none →
       Event.logWarning ("Audio file not found: " ++
           get_resource_path env (joinPath st.sounds_dir e.2)) ∈
         (preloadLoop env st.sounds_dir st.audio_cache st.default_sounds).2.1)) ∧
    ((initAudio envSixOfSeven (mkAudioManager Int "src/sounds")).1.audio_cache.length =
       6 ∧
     (initAudio envSixOfSeven (mkAudioManager Int "src/sounds")).1.inited = true) :=
  ⟨preloadLoop_no_decode_fail env st.sounds_dir st.default_sounds st.audio_cache hnd,
   by decide, by decide⟩

/-- Witness for C3 amended on the 7-entry scenario environment: no default
file fails to decode there, the loop completes, the loaded entry
`AP_Engage` is cached, the missing entry `chime_hi_lo` logs a warning, and
exactly 6 entries end up cached. -/
theorem c3_witness :
    dictLookup "./src/sounds/chime_single.mp3" envSixOfSeven.files ≠
      some FileContent.decodeFails ∧
    (preloadLoop envSixOfSeven "src/sounds" []
      (mkAudioManager Int "src/sounds").default_sounds).2.2 = true ∧
    (dictLookup "AP_Engage"
      (preloadLoop envSixOfSeven "src/sounds" []
        (mkAudioManager Int "src/sounds").default_sounds).1).isSome = true ∧
    Event.logWarning "Audio file not found: ./src/sounds/chime_hi_lo.mp3" ∈
      (preloadLoop envSixOfSeven "src/sounds" []
        (mkAudioManager Int "src/sounds").default_sounds).2.1 ∧
    (initAudio envSixOfSeven (mkAudioManager Int "src/sounds")).1.audio_cache.length =
      6 := by
  have h := c3_preload_skips_missing Int envSixOfSeven
    (mkAudioManager Int "src/sounds") (by decide)
  refine ⟨by decide, h.1.1, ?_, ?_, h.2.1⟩
  · exact h.1.2.1 ("AP_Engage", "AP_Engage.mp3") (by decide)
      (AudioData.mono [0]) 44100 (by decide)
  · exact h.1.2.2 ("chime_hi_lo", "chime_hi_lo.mp3") (by decide) (by decide)

/-- C4 counterexample: when the device-configuration step fails on an
uninitialized state, the only effects are the error log and its console
print — no preload, no warm-up — and the state is not marked initialized,
refuting that the remaining steps are still performed and that step (d)
still marks the state initialized. -/
theorem c4_counterexample :
    envConfigFails.configFails = true ∧
    (initAudio envConfigFails (mkAudioManager Int "src/sounds")).1.inited = false ∧
    (initAudio envConfigFails (mkAudioManager Int "src/sounds")).1 =
      mkAudioManager Int "src/sounds" ∧
    (initAudio envConfigFails (mkAudioManager Int "src/sounds")).2 =
      [Event.logError "Error during audio system initialization",
       Event.consolePrint "Error during audio system initialization"] := by
  decide

/-- C4 amended: on an uninitialized state, failures during preloading or
warm-up are logged and contained, the remaining steps still run, and the
state is still marked initialized; but a failure in the device
configuration step is only logged (no exception reaches the caller) and
aborts preloading, warm-up, and the initialized-flag assignment, leaving
the state unchanged. -/
theorem c4_init_best_effort (α : Type) (env : Env α) (st : AudioManager α)
    (h : st.inited = false) :
    (env.configFails = false →
      (initAudio env st).1.inited = true ∧
      (env.warmupFails = true →
        Event.logWarning "Audio stream warm-up failed" ∈ (initAudio env st).2)) ∧
    (env.configFails = true →
      (initAudio env st).1 = st ∧
      Event.logError "Error during audio system initialization" ∈
        (initAudio env st).2) := by
  constructor
  · intro hc
    constructor
    · simp [initAudio_fst, h, hc]
    · intro hw
      simp [initAudio, h, hc, warmup_audio_stream, hw, List.mem_append]
  · intro hc
    exact ⟨by simp [initAudio_fst, h, hc], by simp [initAudio, h, hc]⟩

/-- Witness for C4 amended: with a failing warm-up (and also arbitrary
missing preload files, since `envWarmupFails` has no files at all),
initialization still completes, marks the state initialized, and logs the
warm-up warning. -/
theorem c4_witness :
    (mkAudioManager Int "src/sounds").inited = false ∧
    envWarmupFails.configFails = false ∧
    envWarmupFails.warmupFails = true ∧
    (initAudio envWarmupFails (mkAudioManager Int "src/sounds")).1.inited = true ∧
    Event.logWarning "Audio stream warm-up failed" ∈
      (initAudio envWarmupFails (mkAudioManager Int "src/sounds")).2 := by
  have h := c4_init_best_effort Int envWarmupFails
    (mkAudioManager Int "src/sounds") rfl
  exact ⟨rfl, rfl, rfl, (h.1 rfl).1, (h.1 rfl).2 rfl⟩

/-- C5 counterexample: a decodable 3-channel file (one frame with three
channels) is successfully inserted, and the stored buffer keeps its 3
channels per frame — the code only normalizes mono input, so the channel
count is not always normalized to 2. -/
theorem c5_counterexample :
    dictLookup "./tri.wav" envTri.files =
      some (FileContent.decodable (AudioData.multi [[1, 2, 3]]) 44100) ∧
    (add_sound envTri stEmptyInited "tri" "tri.wav").1 = true ∧
    (get_audio_data (add_sound envTri stEmptyInited "tri" "tri.wav").2.1 "tri").1 =
      some ⟨[[1, 2, 3]], 44100⟩ ∧
    Option.map (fun e => e.data.map List.length)
      (get_audio_data (add_sound envTri stEmptyInited "tri" "tri.wav").2.1
        "tri").1 = some [3] := by
  decide

/-- C5 amended: a successful `add_sound` from a decodable file stores the
decoder's sample rate and the decoded frame count exactly, and a subsequent
`get_audio_data` returns exactly the stored buffer; mono input of N frames
is normalized to N frames of 2 identical channels, while already-2-D input
keeps its decoded channels unchanged (so stereo stays stereo, but a file
with more than 2 channels is stored as-is rather than normalized to 2). -/
theorem c5_get_returns_stored (α : Type) (env : Env α) (st : AudioManager α)
    (k p : String) (data : AudioData α) (fs : Nat)
    (h : dictLookup (get_resource_path env p) env.files =
      some (FileContent.decodable data fs)) :
    (add_sound env st k p).1 = true ∧
    (get_audio_data (add_sound env st k p).2.1 k).1 =
      some ⟨normalizeStereo data, fs⟩ ∧
    (normalizeStereo data).length = frameCount data ∧
    (∀ s : List α, data = .mono s →
      normalizeStereo data = s.map fun x => [x, x]) ∧
    (∀ fr : List (List α), data = .multi fr → normalizeStereo data = fr) := by
  refine ⟨by simp [add_sound, h], ?_, ?_, ?_, ?_⟩
  · simp [add_sound, h, get_audio_data, dictLookup_dictInsert]
  · cases data <;> simp [normalizeStereo, frameCount]
  · rintro s rfl; rfl
  · rintro fr rfl; rfl

/-- Witness for C5 amended: inserting the 2-frame mono file `m.wav` stores
sample rate 8000 and 2 frames of 2 identical channels, returned exactly by
`get_audio_data`. -/
theorem c5_witness :
    dictLookup (get_resource_path envMono "m.wav") envMono.files =
      some (FileContent.decodable (AudioData.mono [5, 7]) 8000) ∧
    (add_sound envMono stEmptyInited "m" "m.wav").1 = true ∧
    (get_audio_data (add_sound envMono stEmptyInited "m" "m.wav").2.1 "m").1 =
      some ⟨[[5, 5], [7, 7]], 8000⟩ ∧
    normalizeStereo (AudioData.mono [(5 : Int), 7]) = [[5, 5], [7, 7]] := by
  have h := c5_get_returns_stored Int envMono stEmptyInited "m" "m.wav"
    (AudioData.mono [5, 7]) 8000 (by decide)
  refine ⟨by decide, h.1, ?_, ?_⟩
  · rw [h.2.1]; rfl
  · exact (h.2.2.2.1 [5, 7] rfl).trans (by decide)

/-- C6 counterexample: for a key that is already cached, `add_sound` from a
missing path returns `False` and leaves the cache unchanged, but a
subsequent `get_audio_data` of that key returns the previously stored
entry, not nothing — refuting the claim for keys already present. -/
theorem c6_counterexample :
    dictLookup (get_resource_path envEmpty "missing.mp3") envEmpty.files = none ∧
    (add_sound envEmpty stChime "chime" "missing.mp3").1 = false ∧
    (add_sound envEmpty stChime "chime" "missing.mp3").2.1 = stChime ∧
    (get_audio_data (add_sound envEmpty stChime "chime" "missing.mp3").2.1
      "chime").1 = some ⟨[[0, 0]], 8000⟩ := by
  decide

/-- C6 amended: for every key and every path whose resolved file does not
exist, `add_sound` logs the not-found error and returns `False` and the
state is unchanged; a subsequent `get_audio_data` of that key returns
nothing provided the key was not already cached before the call (an
already-cached key keeps returning its old entry). -/
theorem c6_add_missing_file_fails (α : Type) (env : Env α)
    (st : AudioManager α) (k p : String)
    (h : dictLookup (get_resource_path env p) env.files = none) :
    (add_sound env st k p).1 = false ∧
    (add_sound env st k p).2.1 = st ∧
    (add_sound env st k p).2.2 =
      [Event.logError ("Audio file not found: " ++ get_resource_path env p)] ∧
    (dictLookup k st.audio_cache = none →
      (get_audio_data (add_sound env st k p).2.1 k).1 = none) := by
  refine ⟨by simp [add_sound, h], by simp [add_sound, h],
          by simp [add_sound, h], ?_⟩
  intro habs
  simp [add_sound, h, get_audio_data, habs]

/-- Witness for C6 amended: adding a fresh key `chime` from a missing file
on an empty cache fails, changes nothing, and `get_audio_data` then
returns nothing. -/
theorem c6_witness :
    dictLookup (get_resource_path envEmpty "missing.mp3") envEmpty.files = none ∧
    (add_sound envEmpty stEmptyInited "chime" "missing.mp3").1 = false ∧
    (add_sound envEmpty stEmptyInited "chime" "missing.mp3").2.1 = stEmptyInited ∧
    (get_audio_data (add_sound envEmpty stEmptyInited "chime" "missing.mp3").2.1
      "chime").1 = none := by
  have h := c6_add_missing_file_fails Int envEmpty stEmptyInited
    "chime" "missing.mp3" (by decide)
  exact ⟨by decide, h.1, h.2.1, h.2.2.2 (by decide)⟩

/-- C8: a key is listed by `get_available_sounds` exactly when it is in the
cache — the returned sequence's elements are exactly the cached key set;
in particular, after inserting exactly the keys a, b, c via `add_sound`
into an empty cache, the returned sequence equals the set containing
exactly a, b and c. -/
theorem c8_available_sounds_exact (α : Type) (st : AudioManager α)
    (k : String) :
    (k ∈ get_available_sounds st ↔
      (dictLookup k st.audio_cache).isSome = true) ∧
    (get_available_sounds stAbc).toFinset = ({"a", "b", "c"} : Finset String) :=
  ⟨mem_map_fst_iff_dictLookup_isSome k st.audio_cache, by decide⟩

end AudioMgr
